import Mathlib

/-!
Verification of `CloudSettingsService`
(src/packages/core/src/config/cloudSettingsService.ts).

The TypeScript source is shallowly embedded: JavaScript runtime values are
modelled by the inductive `JSVal` (with JS truthiness and `typeof`),
the process environment by `Env`, and the two external collaborators
(`getOauthClient` and `client.request`) by an oracle `Behavior` that says,
for this invocation, whether each collaborator resolves or raises and with
what value.  Raising is made explicit: the body of `loadSettings` inside
its outer `try` is `loadSettingsInner`, returning `Except Thrown _`; the
outer `catch` block is the `match` in `loadSettings`.  A `Trace` records
every log line (with its level), the number of `getOauthClient` calls and
the list of `client.request` calls, so that claims about logging and about
"no network activity" are statable.
-/

namespace GeminiCloudSettings

/-- A JavaScript runtime value, as far as this component inspects one:
`res.data` bodies, error `code` fields and environment values. -/
inductive JSVal where
  | undefined
  | null
  | boolean (b : Bool)
  | number (n : Int)
  | string (s : String)
  | array (elems : List JSVal)
  | object (fields : List (String × JSVal))
deriving Repr

/-- JavaScript truthiness, used by `!projectId`, `!data` and `a || b`. -/
def truthy : JSVal → Bool
  | .undefined => false
  | .null => false
  | .boolean b => b
  | .number n => n != 0
  | .string s => s != ""
  | .array _ => true
  | .object _ => true

/-- JavaScript `typeof`.  Note the JS quirks: `typeof null` is "object",
and `typeof` of an array is also "object". -/
def typeof : JSVal → String
  | .undefined => "undefined"
  | .null => "object"
  | .boolean _ => "boolean"
  | .number _ => "number"
  | .string _ => "string"
  | .array _ => "object"
  | .object _ => "object"

/-- JavaScript `a || b`: the left operand if truthy, else the right. -/
def jsOr (a b : JSVal) : JSVal :=
  if truthy a then a else b

/-- JavaScript strict equality of a value against a number literal,
as in `status === 403`. -/
def strictEqNum (v : JSVal) (n : Int) : Bool :=
  match v with
  | .number m => m == n
  | _ => false

mutual
/-- JavaScript string coercion (template-literal interpolation), as far as
the log messages need it. -/
def jsToString : JSVal → String
  | .undefined => "undefined"
  | .null => "null"
  | .boolean b => if b then "true" else "false"
  | .number n => toString n
  | .string s => s
  | .array es => jsListToString es
  | .object _ => "[object Object]"

/-- String coercion of an array joins the coerced elements with commas. -/
def jsListToString : List JSVal → String
  | [] => ""
  | [v] => jsToString v
  | v :: vs => jsToString v ++ "," ++ jsListToString vs
end

/-- The slice of `process.env` this component reads.  An unset variable is
`none`; a set variable is always a string (possibly empty). -/
structure Env where
  googleCloudProject : Option String
  googleCloudProjectId : Option String

/-- `process.env[name]` yields the string, or `undefined` when unset. -/
def envGet : Option String → JSVal
  | none => .undefined
  | some s => .string s

/-- Lines 35-37: `process.env['GOOGLE_CLOUD_PROJECT'] ||
process.env['GOOGLE_CLOUD_PROJECT_ID']`. -/
def resolveProjectId (env : Env) : JSVal :=
  jsOr (envGet env.googleCloudProject) (envGet env.googleCloudProjectId)

/-- The error thrown by `client.request`, as far as line 58 probes it:
`e.code` and `e.response?.status` (the latter is `undefined` when
`e.response` is absent). -/
structure RequestError where
  code : JSVal
  responseStatus : JSVal
deriving Repr

/-- The resolved value of `client.request`: `{status, data}`. -/
structure ClientResponse where
  status : Int
  data : JSVal
deriving Repr

/-- Behavior of `getOauthClient(authType, config)` for this invocation:
it either yields a client handle or raises some JS value. -/
inductive OauthOutcome where
  | ok
  | raises (e : JSVal)
deriving Repr

/-- Behavior of `client.request({url, method})` for this invocation:
it either resolves with a response or raises an error. -/
inductive RequestOutcome where
  | resolves (res : ClientResponse)
  | raises (e : RequestError)
deriving Repr

/-- Oracle for both external collaborators during one `loadSettings` call. -/
structure Behavior where
  oauth : OauthOutcome
  request : RequestOutcome
deriving Repr

/-- `debugLogger.log` lines versus `console.error` lines. -/
inductive LogLevel where
  | debug
  | error
deriving DecidableEq, Repr

/-- One `client.request({url, method})` call as recorded in the trace. -/
structure RequestCall where
  url : String
  method : String
deriving DecidableEq, Repr

/-- Observable side effects of one `loadSettings` call: log lines in order,
number of `getOauthClient` calls, and the `client.request` calls made. -/
structure Trace where
  logs : List (LogLevel × String)
  oauthCalls : Nat
  requests : List RequestCall
deriving Repr

/-- Whether a log line is error-level (`console.error`). -/
def isErrorLevel (l : LogLevel × String) : Bool :=
  match l.1 with
  | .error => true
  | .debug => false

/-- Number of error-level (`console.error`) lines in a trace. -/
def errorLogCount (tr : Trace) : Nat :=
  (tr.logs.filter isErrorLevel).length

/-- An exception propagating inside the outer `try` block: either
`getOauthClient` raised, or the re-`throw e` of line 65 for a request
error not classified as 403/404. -/
inductive Thrown where
  | oauthFailure (e : JSVal)
  | requestFailure (e : RequestError)
deriving Repr

/-- `${e}` in the catch-block log line. -/
def thrownToString : Thrown → String
  | .oauthFailure e => jsToString e
  | .requestFailure _ => "[object Object]"

/-- Lines 45-47: bucket name, file name and download-media URL. -/
def settingsUrl (projectId : String) : String :=
  let bucketName := projectId ++ "-gemini-cli-settings"
  let fileName := "settings.json"
  "https://storage.googleapis.com/storage/v1/b/" ++ bucketName ++ "/o/"
    ++ fileName ++ "?alt=media"

/-- The body of `loadSettings` inside the outer `try` (lines 33-85).
`Except.error` is a raise reaching the outer catch; `Except.ok` is a
`return`.  The trace records the side effects up to that point. -/
def loadSettingsInner (env : Env) (b : Behavior) :
    Except Thrown (Option JSVal) × Trace :=
  let projectId := resolveProjectId env
  if !(truthy projectId) then
    (Except.ok none,
      ⟨[(LogLevel.debug,
          "Cloud Settings: No project ID found in environment variables; skipping.")],
        0, []⟩)
  else
    let url := settingsUrl (jsToString projectId)
    let fetchLog : LogLevel × String :=
      (LogLevel.debug, "Cloud Settings: Attempting to fetch from " ++ url)
    match b.oauth with
    | .raises e => (Except.error (.oauthFailure e), ⟨[fetchLog], 1, []⟩)
    | .ok =>
      let call : RequestCall := ⟨url, "GET"⟩
      match b.request with
      | .raises e =>
        let status := jsOr e.code e.responseStatus
        if strictEqNum status 403 || strictEqNum status 404 then
          (Except.ok none,
            ⟨[fetchLog,
                (LogLevel.debug,
                  "Cloud Settings: Skipped (Status " ++ jsToString status
                    ++ "). Project/Bucket not found or access denied.")],
              1, [call]⟩)
        else
          (Except.error (.requestFailure e), ⟨[fetchLog], 1, [call]⟩)
      | .resolves res =>
        if res.status != 200 then
          (Except.ok none,
            ⟨[fetchLog,
                (LogLevel.debug,
                  "Cloud Settings: Fetch failed with status "
                    ++ toString res.status ++ "; skipping")],
              1, [call]⟩)
        else
          let data := res.data
          if !(truthy data) || typeof data != "object" then
            (Except.ok none,
              ⟨[fetchLog,
                  (LogLevel.error,
                    "Cloud Settings: Failed to parse settings.json. The file must be a valid JSON object.")],
                1, [call]⟩)
          else
            (Except.ok (some data),
              ⟨[fetchLog, (LogLevel.debug, "Cloud Settings: Successfully loaded.")],
                1, [call]⟩)

/-- `loadSettings(config, authType)` (lines 28-91): the outer `try`/`catch`.
Any exception from the body is converted to `null` plus a debug log line. -/
def loadSettings (env : Env) (b : Behavior) : Option JSVal × Trace :=
  match loadSettingsInner env b with
  | (Except.ok r, tr) => (r, tr)
  | (Except.error e, tr) =>
    (none,
      ⟨tr.logs
          ++ [(LogLevel.debug,
                "Cloud Settings: Error loading settings: " ++ thrownToString e)],
        tr.oauthCalls, tr.requests⟩)

/-- `CloudSettingsService.getInstance` (lines 21-26).  The static
`instance` field is the `Option Nat` state (instances identified by
allocation id); `fresh` is the id `new CloudSettingsService()` would
allocate.  Returns the handle and the updated static state. -/
def getInstance (inst : Option Nat) (fresh : Nat) : Nat × Option Nat :=
  match inst with
  | none => (fresh, some fresh)
  | some i => (i, some i)

/-! ## Helper lemmas relating the outer catch to the inner body -/

/-- The result of `loadSettings` is the inner result with raises collapsed
to `null`. -/
theorem loadSettings_fst (env : Env) (b : Behavior) :
    (loadSettings env b).1 =
      match (loadSettingsInner env b).1 with
      | Except.ok r => r
      | Except.error _ => none := by
  unfold loadSettings
  cases hi : loadSettingsInner env b with
  | mk fst tr => cases fst <;> rfl

/-- The outer catch block adds only a debug line, so the number of
error-level log lines is decided inside the `try` body. -/
theorem errorLogCount_loadSettings (env : Env) (b : Behavior) :
    errorLogCount (loadSettings env b).2 =
      errorLogCount (loadSettingsInner env b).2 := by
  unfold loadSettings
  cases hi : loadSettingsInner env b with
  | mk fst tr =>
    cases fst
    · simp [errorLogCount, List.filter_append, isErrorLevel]
    · rfl

/-- Every request recorded by the body targets the settings URL for the
resolved identifier, with method GET. -/
theorem loadSettingsInner_requests_shape (env : Env) (b : Behavior) :
    ∀ c ∈ (loadSettingsInner env b).2.requests,
      c = ⟨settingsUrl (jsToString (resolveProjectId env)), "GET"⟩ := by
  intro c hc
  cases hp : truthy (resolveProjectId env)
  · simp [loadSettingsInner, hp] at hc
  · cases ho : b.oauth with
    | raises e => simp [loadSettingsInner, hp, ho] at hc
    | ok =>
      cases hr : b.request with
      | raises e =>
        cases hcl : (strictEqNum (jsOr e.code e.responseStatus) 403
            || strictEqNum (jsOr e.code e.responseStatus) 404) <;>
          · simp [loadSettingsInner, hp, ho, hr, hcl] at hc
            simp [hc]
      | resolves res =>
        cases h200 : (res.status != 200)
        · cases hshape : (!(truthy res.data) || (typeof res.data != "object")) <;>
            · simp [loadSettingsInner, hp, ho, hr, h200, hshape] at hc
              simp [hc]
        · simp [loadSettingsInner, hp, ho, hr, h200] at hc
          simp [hc]

/-- The outer catch block performs no network activity of its own. -/
theorem loadSettings_requests (env : Env) (b : Behavior) :
    (loadSettings env b).2.requests = (loadSettingsInner env b).2.requests := by
  unfold loadSettings
  cases hi : loadSettingsInner env b with
  | mk fst tr => cases fst <;> rfl

/-- The outer catch block calls no collaborator of its own. -/
theorem loadSettings_oauthCalls (env : Env) (b : Behavior) :
    (loadSettings env b).2.oauthCalls =
      (loadSettingsInner env b).2.oauthCalls := by
  unfold loadSettings
  cases hi : loadSettingsInner env b with
  | mk fst tr => cases fst <;> rfl

/-! ## Claims -/

/-- C1: for every environment (configuration and authentication mode are
absorbed into the collaborator oracle) and every behavior of the client
factory and client, including either of them raising, `loadSettings`
settles to a settings document or `null`; in particular any raise reaching
the outer handler is converted to `null`, never propagated. -/
theorem loadSettings_never_raises (env : Env) (b : Behavior) :
    ((loadSettings env b).1 = none ∨ ∃ d, (loadSettings env b).1 = some d) ∧
      (∀ e, (loadSettingsInner env b).1 = Except.error e →
        (loadSettings env b).1 = none) := by
  constructor
  · cases h : (loadSettings env b).1 with
    | none => exact Or.inl rfl
    | some d => exact Or.inr ⟨d, rfl⟩
  · intro e h
    rw [loadSettings_fst, h]

/-- Witness for C1: a run in which the client factory raises indeed
settles to `null`. -/
theorem loadSettings_never_raises_witness :
    (loadSettings ⟨some "proj", none⟩
        ⟨.raises (.string "boom"), .resolves ⟨200, .object []⟩⟩).1 = none :=
  (loadSettings_never_raises ⟨some "proj", none⟩
      ⟨.raises (.string "boom"), .resolves ⟨200, .object []⟩⟩).2
    (.oauthFailure (.string "boom")) rfl

/-- C5: when neither environment variable yields a non-empty value,
`loadSettings` returns `null` with no network activity: the client factory
is never invoked and no request is issued. -/
theorem loadSettings_no_project_skips (env : Env) (b : Behavior)
    (h1 : truthy (envGet env.googleCloudProject) = false)
    (h2 : truthy (envGet env.googleCloudProjectId) = false) :
    (loadSettings env b).1 = none ∧
      (loadSettings env b).2.oauthCalls = 0 ∧
      (loadSettings env b).2.requests = [] := by
  have hp : truthy (resolveProjectId env) = false := by
    simp [resolveProjectId, jsOr, h1, h2]
  refine ⟨?_, ?_, ?_⟩
  · rw [loadSettings_fst]
    simp [loadSettingsInner, hp]
  · rw [loadSettings_oauthCalls]
    simp [loadSettingsInner, hp]
  · rw [loadSettings_requests]
    simp [loadSettingsInner, hp]

/-- Witness for C5: with the primary variable unset and the secondary set
but empty, the call returns `null` and touches no collaborator. -/
theorem loadSettings_no_project_skips_witness :
    (loadSettings ⟨none, some ""⟩ ⟨.ok, .resolves ⟨200, .object []⟩⟩).1
        = none ∧
      (loadSettings ⟨none, some ""⟩
          ⟨.ok, .resolves ⟨200, .object []⟩⟩).2.oauthCalls = 0 ∧
      (loadSettings ⟨none, some ""⟩
          ⟨.ok, .resolves ⟨200, .object []⟩⟩).2.requests = [] :=
  loadSettings_no_project_skips ⟨none, some ""⟩
    ⟨.ok, .resolves ⟨200, .object []⟩⟩ rfl rfl

/-- C8: if obtaining the authorized client raises, with any error value,
`loadSettings` resolves to `null` via the outer catch-all handler. -/
theorem loadSettings_oauth_raises_null (env : Env) (b : Behavior) (e : JSVal)
    (ho : b.oauth = .raises e) :
    (loadSettings env b).1 = none := by
  rw [loadSettings_fst]
  cases hp : truthy (resolveProjectId env)
  · simp [loadSettingsInner, hp]
  · simp [loadSettingsInner, hp, ho]

/-- Witness for C8: client construction raising an error object yields
`null`. -/
theorem loadSettings_oauth_raises_null_witness :
    (loadSettings ⟨some "proj", none⟩
        ⟨.raises (.object [("message", .string "network down")]),
          .resolves ⟨200, .object []⟩⟩).1 = none :=
  loadSettings_oauth_raises_null ⟨some "proj", none⟩
    ⟨.raises (.object [("message", .string "network down")]),
      .resolves ⟨200, .object []⟩⟩
    (.object [("message", .string "network down")]) rfl

/-- C9: identifier resolution takes the first non-empty value in order:
a non-empty primary wins regardless of the secondary; when the primary is
unset or empty and the secondary holds a non-empty value, the secondary is
used. -/
theorem resolveProjectId_first_nonempty (env : Env) :
    (∀ s, env.googleCloudProject = some s → s ≠ "" →
        resolveProjectId env = .string s) ∧
      (∀ t, truthy (envGet env.googleCloudProject) = false →
        env.googleCloudProjectId = some t → t ≠ "" →
        resolveProjectId env = .string t) := by
  constructor
  · intro s hs hne
    simp [resolveProjectId, jsOr, envGet, hs, truthy, hne]
  · intro t h1 ht hne
    unfold resolveProjectId jsOr
    rw [h1]
    simp [envGet, ht]

/-- Witness for C9: primary "alpha" beats secondary "beta"; empty primary
falls back to secondary "beta". -/
theorem resolveProjectId_first_nonempty_witness :
    resolveProjectId ⟨some "alpha", some "beta"⟩ = .string "alpha" ∧
      resolveProjectId ⟨some "", some "beta"⟩ = .string "beta" :=
  ⟨(resolveProjectId_first_nonempty ⟨some "alpha", some "beta"⟩).1 "alpha"
      rfl (by decide),
   (resolveProjectId_first_nonempty ⟨some "", some "beta"⟩).2 "beta"
      (by decide) rfl (by decide)⟩

/-- C10: `getInstance` is idempotent: the first call constructs the
instance and stores it, and every later call returns that same handle with
the static state unchanged.  The service retains no other state: in the
embedding, `loadSettings` is a pure function of the environment and the
collaborator oracle, with no service-state parameter at all. -/
theorem getInstance_singleton :
    (∀ f, getInstance none f = (f, some f)) ∧
      (∀ st f1 f2,
        (getInstance (getInstance st f1).2 f2).1 = (getInstance st f1).1 ∧
          (getInstance (getInstance st f1).2 f2).2 = (getInstance st f1).2) := by
  refine ⟨fun f => rfl, fun st f1 f2 => ?_⟩
  cases st <;> exact ⟨rfl, rfl⟩

/-- C3: if the client's request raises an error carrying 403 or 404 via
its `code` field or nested `response.status` field, `loadSettings`
resolves to `null` and does not raise.  (When `code` holds a different
truthy value the re-raise path is taken, but the outer handler still
converts it to `null`.) -/
theorem loadSettings_request_403_404_null (env : Env) (b : Behavior)
    (e : RequestError) (hr : b.request = .raises e)
    (_hst : e.code = .number 403 ∨ e.code = .number 404 ∨
      e.responseStatus = .number 403 ∨ e.responseStatus = .number 404) :
    (loadSettings env b).1 = none := by
  rw [loadSettings_fst]
  cases hp : truthy (resolveProjectId env)
  · simp [loadSettingsInner, hp]
  · cases ho : b.oauth with
    | raises e2 => simp [loadSettingsInner, hp, ho]
    | ok =>
      cases hcl : (strictEqNum (jsOr e.code e.responseStatus) 403
          || strictEqNum (jsOr e.code e.responseStatus) 404) <;>
        simp [loadSettingsInner, hp, ho, hr, hcl]

/-- Witness for C3: a request error with `code` 404 yields `null`. -/
theorem loadSettings_request_403_404_null_witness :
    (loadSettings ⟨some "proj", none⟩
        ⟨.ok, .raises ⟨.number 404, .undefined⟩⟩).1 = none :=
  loadSettings_request_403_404_null ⟨some "proj", none⟩
    ⟨.ok, .raises ⟨.number 404, .undefined⟩⟩ ⟨.number 404, .undefined⟩ rfl
    (Or.inr (Or.inl rfl))

/-- C4: every request issued by `loadSettings` targets exactly
`https://storage.googleapis.com/storage/v1/b/\x7bid\x7d-gemini-cli-settings/o/settings.json?alt=media`
for the resolved identifier, with method GET. -/
theorem loadSettings_request_url (env : Env) (b : Behavior) (s : String)
    (hs : resolveProjectId env = .string s) :
    ∀ c ∈ (loadSettings env b).2.requests,
      c.url = settingsUrl s ∧ c.method = "GET" := by
  intro c hc
  rw [loadSettings_requests] at hc
  have hshape := loadSettingsInner_requests_shape env b c hc
  rw [hshape, hs]
  constructor <;> simp [jsToString]

/-- Witness for C4: the request issued for identifier "proj" targets the
settings URL for "proj". -/
theorem loadSettings_request_url_witness :
    RequestCall.url ⟨settingsUrl "proj", "GET"⟩ = settingsUrl "proj" ∧
      RequestCall.method ⟨settingsUrl "proj", "GET"⟩ = "GET" :=
  loadSettings_request_url ⟨some "proj", none⟩
    ⟨.ok, .resolves ⟨200, .object []⟩⟩ "proj" rfl
    ⟨settingsUrl "proj", "GET"⟩
    (by
      rw [loadSettings_requests]
      simp [loadSettingsInner, resolveProjectId, envGet, jsOr, truthy,
        typeof, jsToString])

/-- C6: a status-200 response whose body is a JSON object is passed
through unchanged: `loadSettings` resolves to exactly that object. -/
theorem loadSettings_success_passthrough (env : Env) (b : Behavior)
    (fields : List (String × JSVal))
    (hp : truthy (resolveProjectId env) = true)
    (ho : b.oauth = .ok)
    (hr : b.request = .resolves ⟨200, .object fields⟩) :
    (loadSettings env b).1 = some (.object fields) := by
  rw [loadSettings_fst]
  have h1 : truthy (JSVal.object fields) = true := rfl
  have h2 : typeof (JSVal.object fields) = "object" := rfl
  simp [loadSettingsInner, hp, ho, hr, h1, h2]

/-- Witness for C6: body `{"a": 1}` is returned exactly. -/
theorem loadSettings_success_passthrough_witness :
    (loadSettings ⟨some "proj", none⟩
        ⟨.ok, .resolves ⟨200, .object [("a", .number 1)]⟩⟩).1
      = some (.object [("a", .number 1)]) :=
  loadSettings_success_passthrough ⟨some "proj", none⟩
    ⟨.ok, .resolves ⟨200, .object [("a", .number 1)]⟩⟩ [("a", .number 1)]
    rfl rfl rfl

/-- C7: a response whose status is not exactly 200 leads to `null` without
raising and without the malformed-payload error-level message: no
error-level line is emitted on any path consistent with such a response. -/
theorem loadSettings_non200_null_no_error_log (env : Env) (b : Behavior)
    (res : ClientResponse) (hr : b.request = .resolves res)
    (hs : res.status ≠ 200) :
    (loadSettings env b).1 = none ∧
      errorLogCount (loadSettings env b).2 = 0 := by
  have h200 : (res.status != 200) = true := by simpa using hs
  rw [loadSettings_fst, errorLogCount_loadSettings]
  cases hp : truthy (resolveProjectId env)
  · constructor <;> simp [loadSettingsInner, hp, errorLogCount, isErrorLevel]
  · cases ho : b.oauth with
    | raises e =>
      constructor <;>
        simp [loadSettingsInner, hp, ho, errorLogCount, isErrorLevel]
    | ok =>
      constructor <;>
        simp [loadSettingsInner, hp, ho, hr, h200, errorLogCount,
          isErrorLevel]

/-- Witness for C7: a 500 response yields `null` and no error-level log. -/
theorem loadSettings_non200_null_no_error_log_witness :
    (loadSettings ⟨some "proj", none⟩
        ⟨.ok, .resolves ⟨500, .object []⟩⟩).1 = none ∧
      errorLogCount (loadSettings ⟨some "proj", none⟩
          ⟨.ok, .resolves ⟨500, .object []⟩⟩).2 = 0 :=
  loadSettings_non200_null_no_error_log ⟨some "proj", none⟩
    ⟨.ok, .resolves ⟨500, .object []⟩⟩ ⟨500, .object []⟩ rfl (by decide)

/-- C2 fails on arrays: with status 200 and body `[1,2,3]`, `loadSettings`
returns the array itself (not `null`) and emits no error-level log line,
because `typeof` of an array is "object" and arrays are truthy, so the
body-shape check accepts them. -/
theorem loadSettings_array_body_counterexample :
    (loadSettings ⟨some "proj", none⟩
        ⟨.ok, .resolves ⟨200, .array [.number 1, .number 2, .number 3]⟩⟩).1
        = some (.array [.number 1, .number 2, .number 3]) ∧
      (loadSettings ⟨some "proj", none⟩
          ⟨.ok, .resolves ⟨200, .array [.number 1, .number 2, .number 3]⟩⟩).1
        ≠ none ∧
      errorLogCount (loadSettings ⟨some "proj", none⟩
          ⟨.ok, .resolves ⟨200, .array [.number 1, .number 2, .number 3]⟩⟩).2
        = 0 := by
  refine ⟨rfl, ?_, rfl⟩
  simp only [show (loadSettings ⟨some "proj", none⟩
      ⟨.ok, .resolves ⟨200, .array [.number 1, .number 2, .number 3]⟩⟩).1
      = some (.array [.number 1, .number 2, .number 3]) from rfl]
  simp

/-- C2 (amended): with status 200, a body that is null/undefined or a
primitive is rejected — `null` is returned and exactly one error-level log
line is emitted; an array body, however, passes the `typeof`-object check
and is returned unchanged rather than rejected. -/
theorem loadSettings_body_shape (env : Env) (b : Behavior) (data : JSVal)
    (hp : truthy (resolveProjectId env) = true) (ho : b.oauth = .ok)
    (hr : b.request = .resolves ⟨200, data⟩) :
    ((typeof data ≠ "object" ∨ data = .null) →
      (loadSettings env b).1 = none ∧
        errorLogCount (loadSettings env b).2 = 1) ∧
      (∀ xs, data = .array xs →
        (loadSettings env b).1 = some (.array xs)) := by
  constructor
  · intro hd
    have hshape : (!(truthy data) || (typeof data != "object")) = true := by
      rcases hd with hd | hd
      · simp [hd]
      · subst hd; rfl
    rw [loadSettings_fst, errorLogCount_loadSettings]
    constructor <;>
      simp [loadSettingsInner, hp, ho, hr, hshape, errorLogCount,
        isErrorLevel]
  · intro xs hx
    subst hx
    rw [loadSettings_fst]
    have h1 : truthy (JSVal.array xs) = true := rfl
    have h2 : typeof (JSVal.array xs) = "object" := rfl
    simp [loadSettingsInner, hp, ho, hr, h1, h2]

/-- Witness for the amended C2: the primitive body "not-an-object" is
rejected with `null` and exactly one error-level log line. -/
theorem loadSettings_body_shape_witness :
    (loadSettings ⟨some "proj", none⟩
        ⟨.ok, .resolves ⟨200, .string "not-an-object"⟩⟩).1 = none ∧
      errorLogCount (loadSettings ⟨some "proj", none⟩
          ⟨.ok, .resolves ⟨200, .string "not-an-object"⟩⟩).2 = 1 :=
  (loadSettings_body_shape ⟨some "proj", none⟩
      ⟨.ok, .resolves ⟨200, .string "not-an-object"⟩⟩
      (.string "not-an-object") rfl rfl rfl).1 (Or.inl (by decide))

end GeminiCloudSettings
